import Mathlib

/-!
OkraGo: the authenticated-POST pipeline and payload composition.

A shallow embedding of `okra.go` (package `okra`) and `auth/auth.go`
(package `auth`).

Modelling conventions.

* Go `string` and `[]byte` values are Lean `String`s.  The conversions
  `string(bod)` and `bytes.NewBuffer(reqBody)` copy bytes unchanged and are the
  identity here.
* A Go `error` is a `GoError`: either an error produced by a library call, of
  which only the message is known, or the value built by
  `fmt.Errorf("...: %w", err)`, which stores the formatted message and the
  wrapped error.  A nil error is `none`.
* `panic` is the `Except.error` result of a constructor.
* The network is a `World`: which URLs `http.NewRequest` accepts, and what
  `(*http.Client).Do` answers to a request.  Every function that talks to the
  network also reports the list of requests it handed to `Do`.
-/

namespace Okra

/-! ## Errors -/

/-- Go error values: a library error with its message, or an error that stores
its message and wraps another one, as the `*fmt.wrapError` made by `fmt.Errorf`
with a `%w` verb and the `*url.Error` of `net/http` do. -/
inductive GoError where
  | lib (msg : String)
  | wrapError (msg : String) (err : GoError)
  deriving DecidableEq, Repr

/-- The method `Error()` of an error value. -/
def GoError.Error : GoError → String
  | .lib msg => msg
  | .wrapError msg _ => msg

/-- The method `Unwrap()`: the wrapped error, if any. -/
def GoError.Unwrap : GoError → Option GoError
  | .lib _ => none
  | .wrapError _ err => some err

/-- The call `fmt.Errorf(ctx ++ "%w", err)`: `ctx` is the format text before the
verb. -/
def Errorf (ctx : String) (err : GoError) : GoError :=
  .wrapError (ctx ++ err.Error) err

/-- The `*url.Error` that `(*http.Client).Do` returns when a POST fails: its
message is `Post "<url>": <cause>` and it unwraps to the cause.  The URL stands
between plain double quotes, which is what the verb `%q` writes for a URL
without quotes, backslashes or unprintable characters. -/
def urlError (url : String) (cause : GoError) : GoError :=
  .wrapError ("Post \"" ++ url ++ "\": " ++ cause.Error) cause

/-- Apply `Unwrap` `n` times. -/
def unwrapN : Nat → GoError → Option GoError
  | 0, e => some e
  | n + 1, e => (e.Unwrap).bind (unwrapN n)

/-! ## JSON encoding (`encoding/json`) -/

/-- JSON values that `json.Marshal` produces for the payloads of this package. -/
inductive JSON where
  | null
  | str (s : String)
  | obj (fields : List (String × JSON))

/-- One lower-case hexadecimal digit. -/
def hexDigit (n : Nat) : Char := Nat.digitChar (n % 16)

/-- The encoding of one character inside a JSON string literal, as
`encoding/json` writes it with HTML escaping on (the setting of
`json.Marshal`): the quote and the backslash get a backslash, newline, carriage
return and tab their short escapes, other control characters and `<`, `>`, `&`
the form `\u00XX`, U+2028 and U+2029 the form `\u202X`; everything else is
copied.  (Go 1.22 and later shorten U+0008 and U+000C to `\b` and `\f`; byte
sequences that are not UTF-8, which the encoder replaces by `\ufffd`, are not
Lean strings.) -/
def quoteChar (c : Char) : String :=
  let bs := String.singleton (Char.ofNat 92)
  if c.toNat = 34 then bs ++ String.singleton c
  else if c.toNat = 92 then bs ++ String.singleton c
  else if c.toNat = 10 then bs ++ "n"
  else if c.toNat = 13 then bs ++ "r"
  else if c.toNat = 9 then bs ++ "t"
  else if c.toNat < 32 ∨ c.toNat = 60 ∨ c.toNat = 62 ∨ c.toNat = 38 then
    bs ++ "u00" ++ String.singleton (hexDigit (c.toNat / 16))
      ++ String.singleton (hexDigit c.toNat)
  else if c.toNat = 8232 ∨ c.toNat = 8233 then
    bs ++ "u202" ++ String.singleton (hexDigit c.toNat)
  else String.singleton c

/-- A JSON string literal: the escaped characters between double quotes. -/
def quote (s : String) : String :=
  let dq := String.singleton (Char.ofNat 34)
  dq ++ String.join (s.data.map quoteChar) ++ dq

mutual
/-- The compact text `json.Marshal` writes for a value. -/
def JSON.render : JSON → String
  | .null => "null"
  | .str s => quote s
  | .obj fields => "\x7b" ++ JSON.renderFields fields ++ "\x7d"
/-- The members of an object, comma separated, in order. -/
def JSON.renderFields : List (String × JSON) → String
  | [] => ""
  | [(k, v)] => quote k ++ ":" ++ JSON.render v
  | (k, v) :: f :: fs => quote k ++ ":" ++ JSON.render v ++ "," ++ JSON.renderFields (f :: fs)
end

/-- The value stored under a key of an object. -/
def JSON.lookup (k : String) : JSON → Option JSON
  | .obj fields => fields.lookup k
  | _ => none

/-- The keys of an object, in order. -/
def JSON.keys : JSON → List String
  | .obj fields => fields.map Prod.fst
  | _ => []

/-! ## Requests, responses and the network -/

/-- The part of an `*http.Request` this package sets: method, URL, header
entries in the order added, and the bytes of the entity body (empty when the
request has no entity body). -/
structure Request where
  Method : String
  URL : String
  Header : List (String × String)
  Body : String
  deriving DecidableEq, Repr

/-- The part of an `*http.Response` this package reads: the status code and the
result of `ioutil.ReadAll(resp.Body)`. -/
structure Response where
  StatusCode : Int
  Body : Except GoError String

/-- The environment of a call: `rejectURL url` is the error `http.NewRequest`
returns when it cannot parse `url` (`none` when it accepts it), and `Do` is the
answer of `(&http.Client{}).Do` to a request. -/
structure World where
  rejectURL : String → Option GoError
  Do : Request → Except GoError Response

/-- What a call gives back to its caller, the pair `(body, err)`, together with
the requests the call handed to `Do`. -/
structure Outcome where
  body : String
  err : Option GoError
  sent : List Request

/-- The call `http.NewRequest(method, url, bytes.NewBuffer(body))`: fails when
the URL is rejected, else a request with that method, URL and body and an
empty header. -/
def NewRequest (net : World) (method url body : String) : Except GoError Request :=
  match net.rejectURL url with
  | some err => .error err
  | none => .ok { Method := method, URL := url, Header := [], Body := body }

/-- The call `req.Header.Add(key, value)`. -/
def Request.HeaderAdd (req : Request) (key value : String) : Request :=
  { req with Header := req.Header ++ [(key, value)] }

/-- The Go conversion `string(i)` of an integer: the UTF-8 text of the single
code point `i`, or of U+FFFD when `i` is not a valid code point.  It is not the
decimal representation of `i`. -/
def stringOfInt (i : Int) : String :=
  if 0 ≤ i ∧ (i < 55296 ∨ (57344 ≤ i ∧ i ≤ 1114111)) then
    String.singleton (Char.ofNat i.toNat)
  else String.singleton (Char.ofNat 65533)

/-! ## Payloads -/

/-- The struct `option`. -/
structure option where
  FirstName : String := ""
  LastName : String := ""

/-- The struct `optionPayload`. -/
structure optionPayload where
  Page : String := ""
  Limit : String := ""
  Options : option := {}

/-- The struct `genPayload`; unset fields hold the zero value, the empty string.
The field `Type` of the source is `Type_` here. -/
structure genPayload where
  Page : String := ""
  Limit : String := ""
  CustomerID : String := ""
  From : String := ""
  To : String := ""
  BankID : String := ""
  ID : String := ""
  AccountID : String := ""
  Type_ : String := ""
  Amount : String := ""
  Account : String := ""
  RecordID : String := ""
  Currency : String := ""

/-- The values passed as the `interface{}` argument of `postRequest`. -/
inductive Payload where
  | nil
  | gen (pl : genPayload)
  | opt (pl : optionPayload)

/-- The JSON object of an `option`, keys from its struct tags. -/
def option.toJSON (o : option) : JSON :=
  .obj [("first_name", .str o.FirstName), ("last_name", .str o.LastName)]

/-- The JSON object of an `optionPayload`, keys from its struct tags. -/
def optionPayload.toJSON (p : optionPayload) : JSON :=
  .obj [("page", .str p.Page), ("limit", .str p.Limit), ("options", p.Options.toJSON)]

/-- The JSON object of a `genPayload`: one member per field, in declaration
order, keys from the struct tags; no tag says `omitempty`. -/
def genPayload.toJSON (p : genPayload) : JSON :=
  .obj [("page", .str p.Page), ("limit", .str p.Limit), ("customer", .str p.CustomerID),
    ("from", .str p.From), ("to", .str p.To), ("bank", .str p.BankID), ("id", .str p.ID),
    ("account", .str p.AccountID), ("type", .str p.Type_), ("amount", .str p.Amount),
    ("account_id", .str p.Account), ("record_id", .str p.RecordID),
    ("currency", .str p.Currency)]

/-- The JSON value of a payload; a nil interface is `null`. -/
def Payload.toJSON : Payload → JSON
  | .nil => .null
  | .gen pl => pl.toJSON
  | .opt pl => pl.toJSON

/-- The call `json.Marshal(pl)`; it cannot fail on these payloads. -/
def jsonMarshal (pl : Payload) : Except GoError String :=
  .ok pl.toJSON.render

/-! ## `okra.go` -/

/-- The struct `Client`. -/
structure Client where
  token : String
  baseurl : String
  deriving DecidableEq, Repr

/-- The function `NewOkra`; `Except.error` is the panic with its message. -/
def NewOkra (t b : String) : Except String Client :=
  let u : Client := { token := t, baseurl := b }
  if u.token = "" ∨ u.baseurl = "" then
    .error "Token and Base url is needed to call this Function"
  else .ok u

/-- The function `postRequest` of `okra.go`. -/
def postRequest (net : World) (pl : Payload) (url token : String) : Outcome :=
  match jsonMarshal pl with
  | .error err => ⟨"Error", some (Errorf "error marshalling json: " err), []⟩
  | .ok reqBody =>
    let bearer := "Bearer " ++ token
    match NewRequest net "POST" url reqBody with
    | .error err => ⟨"Error", some (Errorf "error making http call: " err), []⟩
    | .ok req0 =>
      let req := req0.HeaderAdd "Authorization" bearer
      match net.Do req with
      | .error err => ⟨"Error", some (Errorf "error doing request: " err), [req]⟩
      | .ok resp =>
        match resp.Body with
        | .error err => ⟨"Error", some (Errorf "error reading body: " err), [req]⟩
        | .ok bod =>
          if resp.StatusCode ≠ 200 then
            ⟨"Status code returned was: " ++ stringOfInt resp.StatusCode, none, [req]⟩
          else ⟨bod, none, [req]⟩

/-- The tail shared by every caller of `postRequest`:
`if err != nil { return "Error", fmt.Errorf(ctx ++ "%w", err) }; return`. -/
def Outcome.orWrap (r : Outcome) (ctx : String) : Outcome :=
  match r.err with
  | some err => ⟨"Error", some (Errorf ctx err), r.sent⟩
  | none => r

/-- The function `byID`. -/
def byID (net : World) (page limit i endpoint token : String) : Outcome :=
  let pl : genPayload := { Page := page, Limit := limit, ID := i }
  (postRequest net (.gen pl) endpoint token).orWrap "error fetching product using id: "

/-- The function `byOptions`. -/
def byOptions (net : World) (page limit firstname lastname url token : String) : Outcome :=
  let pl : optionPayload :=
    { Page := page, Limit := limit, Options := { FirstName := firstname, LastName := lastname } }
  (postRequest net (.opt pl) url token).orWrap "error retrieving product byoptions: "

/-- The method `RetrieveAuth`. -/
def Client.RetrieveAuth (w : Client) (net : World) : Outcome :=
  let endpoint := w.baseurl ++ "products/auths"
  (postRequest net .nil endpoint w.token).orWrap "error retrieving auth token: "

/-- The method `AuthByID`. -/
def Client.AuthByID (w : Client) (net : World) (page limit i : String) : Outcome :=
  let endpoint := w.baseurl ++ "auth/getById"
  (byID net page limit i endpoint w.token).orWrap "error fetching auth using id: "

/-- The method `AuthByOptions`. -/
def Client.AuthByOptions (w : Client) (net : World) (page limit firstname lastname : String) :
    Outcome :=
  let url := w.baseurl ++ "auth/getByOptions"
  (byOptions net page limit firstname lastname url w.token).orWrap
    "error retrieving auth byoptions: "

/-- The method `AuthByCustomer`. -/
def Client.AuthByCustomer (w : Client) (net : World) (page limit customerID : String) :
    Outcome :=
  let pl : genPayload := { Page := page, Limit := limit, CustomerID := customerID }
  let endpoint := w.baseurl ++ "auth/getByCustomer"
  (postRequest net (.gen pl) endpoint w.token).orWrap "error retrieving auth bycustomer: "

/-- The method `AuthByDateRange`. -/
def Client.AuthByDateRange (w : Client) (net : World) (page limit from_ to_ : String) :
    Outcome :=
  let pl : genPayload := { Page := page, Limit := limit, From := from_, To := to_ }
  let endpoint := w.baseurl ++ "auth/getByDate"
  (postRequest net (.gen pl) endpoint w.token).orWrap "error retrieving auth byDateRange: "

/-- The method `AuthByBank`. -/
def Client.AuthByBank (w : Client) (net : World) (page limit bankID : String) : Outcome :=
  let pl : genPayload := { Page := page, Limit := limit, BankID := bankID }
  let endpoint := w.baseurl ++ "auth/getByBank"
  (postRequest net (.gen pl) endpoint w.token).orWrap "error retrieving auth byBank: "

/-- The method `AuthByCustomerDate`. -/
def Client.AuthByCustomerDate (w : Client) (net : World)
    (page limit from_ to_ customerID : String) : Outcome :=
  let pl : genPayload :=
    { Page := page, Limit := limit, From := from_, To := to_, CustomerID := customerID }
  let endpoint := w.baseurl ++ "auth/getByCustomerDate"
  (postRequest net (.gen pl) endpoint w.token).orWrap "error retrieving auth byCustomerDate: "

/-- The method `RetrieveBalance`. -/
def Client.RetrieveBalance (w : Client) (net : World) : Outcome :=
  let endpoint := w.baseurl ++ "products/balances"
  (postRequest net .nil endpoint w.token).orWrap "error retrieving bank balance: "

/-- The method `BalanceByID`. -/
def Client.BalanceByID (w : Client) (net : World) (page limit i : String) : Outcome :=
  let endpoint := w.baseurl ++ "balance/getById"
  (byID net page limit i endpoint w.token).orWrap "error fetching balance using id: "

/-- The method `BalanceByOptions`. -/
def Client.BalanceByOptions (w : Client) (net : World)
    (page limit firstname lastname : String) : Outcome :=
  let url := w.baseurl ++ "balance/byOptions"
  (byOptions net page limit firstname lastname url w.token).orWrap
    "error retrieving balance byoptions: "

/-- The method `BalanceByCustomer`. -/
def Client.BalanceByCustomer (w : Client) (net : World) (page limit customerID : String) :
    Outcome :=
  let pl : genPayload := { Page := page, Limit := limit, CustomerID := customerID }
  let endpoint := w.baseurl ++ "balance/getByCustomer"
  (postRequest net (.gen pl) endpoint w.token).orWrap "error retrieving balance bycustomer: "

/-- The method `BalanceByAccount`. -/
def Client.BalanceByAccount (w : Client) (net : World) (page limit AccountID : String) :
    Outcome :=
  let pl : genPayload := { Page := page, Limit := limit, AccountID := AccountID }
  let endpoint := w.baseurl ++ "balance/getByAccount"
  (postRequest net (.gen pl) endpoint w.token).orWrap "error retrieving balance by accountID: "

/-- The method `BalanceByType`. -/
def Client.BalanceByType (w : Client) (net : World) (page limit theType amount : String) :
    Outcome :=
  let pl : genPayload := { Page := page, Limit := limit, Type_ := theType, Amount := amount }
  let endpoint := w.baseurl ++ "balance/getByType"
  (postRequest net (.gen pl) endpoint w.token).orWrap "error retrieving balance by type: "

/-- The method `BalanceByCustomerDate`. -/
def Client.BalanceByCustomerDate (w : Client) (net : World)
    (page limit from_ to_ customerID : String) : Outcome :=
  let pl : genPayload :=
    { Page := page, Limit := limit, From := from_, To := to_, CustomerID := customerID }
  let endpoint := w.baseurl ++ "balance/getByCustomerDate"
  (postRequest net (.gen pl) endpoint w.token).orWrap
    "error retrieving balance byCustomerDate: "

/-- The method `RealTimeBalance`. -/
def Client.RealTimeBalance (w : Client) (net : World) (currency recordID accountID : String) :
    Outcome :=
  let pl : genPayload := { Currency := currency, RecordID := recordID, Account := accountID }
  let endpoint := w.baseurl ++ "products/balance/periodic"
  (postRequest net (.gen pl) endpoint w.token).orWrap "error retrieving real time balance: "

/-- The method `RetrieveTransaction`. -/
def Client.RetrieveTransaction (w : Client) (net : World) : Outcome :=
  let endpoint := w.baseurl ++ "products/transactions"
  (postRequest net .nil endpoint w.token).orWrap "error retrieving bank balance: "

/-- The method `TransactionByID`. -/
def Client.TransactionByID (w : Client) (net : World) (page limit i : String) : Outcome :=
  let endpoint := w.baseurl ++ "transaction/getById"
  (byID net page limit i endpoint w.token).orWrap "error fetching Transaction using id: "

/-- The method `TransactionByOptions`. -/
def Client.TransactionByOptions (w : Client) (net : World)
    (page limit firstname lastname : String) : Outcome :=
  let url := w.baseurl ++ "transaction/byOptions"
  (byOptions net page limit firstname lastname url w.token).orWrap
    "error retrieving transaction byoptions: "

/-- A call of one of the 18 public methods of `Client`, with its arguments. -/
inductive Call where
  | RetrieveAuth
  | AuthByID (page limit i : String)
  | AuthByOptions (page limit firstname lastname : String)
  | AuthByCustomer (page limit customerID : String)
  | AuthByDateRange (page limit from_ to_ : String)
  | AuthByBank (page limit bankID : String)
  | AuthByCustomerDate (page limit from_ to_ customerID : String)
  | RetrieveBalance
  | BalanceByID (page limit i : String)
  | BalanceByOptions (page limit firstname lastname : String)
  | BalanceByCustomer (page limit customerID : String)
  | BalanceByAccount (page limit AccountID : String)
  | BalanceByType (page limit theType amount : String)
  | BalanceByCustomerDate (page limit from_ to_ customerID : String)
  | RealTimeBalance (currency recordID accountID : String)
  | RetrieveTransaction
  | TransactionByID (page limit i : String)
  | TransactionByOptions (page limit firstname lastname : String)

/-- Run a call: dispatch to the method it names. -/
def Client.call (w : Client) (net : World) : Call → Outcome
  | .RetrieveAuth => w.RetrieveAuth net
  | .AuthByID page limit i => w.AuthByID net page limit i
  | .AuthByOptions page limit firstname lastname =>
      w.AuthByOptions net page limit firstname lastname
  | .AuthByCustomer page limit customerID => w.AuthByCustomer net page limit customerID
  | .AuthByDateRange page limit from_ to_ => w.AuthByDateRange net page limit from_ to_
  | .AuthByBank page limit bankID => w.AuthByBank net page limit bankID
  | .AuthByCustomerDate page limit from_ to_ customerID =>
      w.AuthByCustomerDate net page limit from_ to_ customerID
  | .RetrieveBalance => w.RetrieveBalance net
  | .BalanceByID page limit i => w.BalanceByID net page limit i
  | .BalanceByOptions page limit firstname lastname =>
      w.BalanceByOptions net page limit firstname lastname
  | .BalanceByCustomer page limit customerID => w.BalanceByCustomer net page limit customerID
  | .BalanceByAccount page limit AccountID => w.BalanceByAccount net page limit AccountID
  | .BalanceByType page limit theType amount => w.BalanceByType net page limit theType amount
  | .BalanceByCustomerDate page limit from_ to_ customerID =>
      w.BalanceByCustomerDate net page limit from_ to_ customerID
  | .RealTimeBalance currency recordID accountID =>
      w.RealTimeBalance net currency recordID accountID
  | .RetrieveTransaction => w.RetrieveTransaction net
  | .TransactionByID page limit i => w.TransactionByID net page limit i
  | .TransactionByOptions page limit firstname lastname =>
      w.TransactionByOptions net page limit firstname lastname

end Okra

/-! ## `auth/auth.go` -/

namespace Auth

open Okra

/-- The struct `Initializer`. -/
structure Initializer where
  token : String
  baseurl : String
  deriving DecidableEq, Repr

/-- The function `New`; `Except.error` is the panic with its message. -/
def New (t b : String) : Except String Initializer :=
  let u : Initializer := { token := t, baseurl := b }
  if u.token = "" ∨ u.baseurl = "" then
    .error "Token and Base url is needed to call this Function"
  else .ok u

/-- The function `postRequest` of `auth/auth.go`; a nil `reqBody` is the empty
byte sequence. -/
def postRequest (net : World) (url reqBody token : String) : Outcome :=
  let bearer := "Bearer " ++ token
  match NewRequest net "POST" url reqBody with
  | .error err => ⟨"Error", some (Errorf "error making http call: " err), []⟩
  | .ok req0 =>
    let req := req0.HeaderAdd "Authorization" bearer
    match net.Do req with
    | .error err => ⟨"Error", some (Errorf "error doing request: " err), [req]⟩
    | .ok resp =>
      match resp.Body with
      | .error err => ⟨"Error", some (Errorf "error reading body: " err), [req]⟩
      | .ok bod =>
        if resp.StatusCode ≠ 200 then
          ⟨"Status code returned was: " ++ stringOfInt resp.StatusCode, none, [req]⟩
        else ⟨bod, none, [req]⟩

/-- The method `RetrieveAuth` of `Initializer`: it passes a nil body. -/
def Initializer.RetrieveAuth (w : Initializer) (net : World) : Outcome :=
  let endpoint := w.baseurl ++ "products/auths"
  (postRequest net endpoint "" w.token).orWrap "error retrieving auth token: "

end Auth

namespace Okra

/-! ## Tables read off the methods -/

/-- The payload a call passes to `postRequest`. -/
def Call.payload : Call → Payload
  | .RetrieveAuth | .RetrieveBalance | .RetrieveTransaction => .nil
  | .AuthByID page limit i | .BalanceByID page limit i | .TransactionByID page limit i =>
      .gen { Page := page, Limit := limit, ID := i }
  | .AuthByOptions page limit firstname lastname
  | .BalanceByOptions page limit firstname lastname
  | .TransactionByOptions page limit firstname lastname =>
      .opt { Page := page, Limit := limit,
             Options := { FirstName := firstname, LastName := lastname } }
  | .AuthByCustomer page limit customerID | .BalanceByCustomer page limit customerID =>
      .gen { Page := page, Limit := limit, CustomerID := customerID }
  | .AuthByDateRange page limit from_ to_ =>
      .gen { Page := page, Limit := limit, From := from_, To := to_ }
  | .AuthByBank page limit bankID => .gen { Page := page, Limit := limit, BankID := bankID }
  | .AuthByCustomerDate page limit from_ to_ customerID
  | .BalanceByCustomerDate page limit from_ to_ customerID =>
      .gen { Page := page, Limit := limit, From := from_, To := to_, CustomerID := customerID }
  | .BalanceByAccount page limit AccountID =>
      .gen { Page := page, Limit := limit, AccountID := AccountID }
  | .BalanceByType page limit theType amount =>
      .gen { Page := page, Limit := limit, Type_ := theType, Amount := amount }
  | .RealTimeBalance currency recordID accountID =>
      .gen { Currency := currency, RecordID := recordID, Account := accountID }

/-- The path a call appends to the base URL. -/
def Call.endpoint : Call → String
  | .RetrieveAuth => "products/auths"
  | .AuthByID .. => "auth/getById"
  | .AuthByOptions .. => "auth/getByOptions"
  | .AuthByCustomer .. => "auth/getByCustomer"
  | .AuthByDateRange .. => "auth/getByDate"
  | .AuthByBank .. => "auth/getByBank"
  | .AuthByCustomerDate .. => "auth/getByCustomerDate"
  | .RetrieveBalance => "products/balances"
  | .BalanceByID .. => "balance/getById"
  | .BalanceByOptions .. => "balance/byOptions"
  | .BalanceByCustomer .. => "balance/getByCustomer"
  | .BalanceByAccount .. => "balance/getByAccount"
  | .BalanceByType .. => "balance/getByType"
  | .BalanceByCustomerDate .. => "balance/getByCustomerDate"
  | .RealTimeBalance .. => "products/balance/periodic"
  | .RetrieveTransaction => "products/transactions"
  | .TransactionByID .. => "transaction/getById"
  | .TransactionByOptions .. => "transaction/byOptions"

/-- The static context of the method a call names: the text before `%w` in the
method's own `fmt.Errorf`. -/
def Call.context : Call → String
  | .RetrieveAuth => "error retrieving auth token: "
  | .AuthByID .. => "error fetching auth using id: "
  | .AuthByOptions .. => "error retrieving auth byoptions: "
  | .AuthByCustomer .. => "error retrieving auth bycustomer: "
  | .AuthByDateRange .. => "error retrieving auth byDateRange: "
  | .AuthByBank .. => "error retrieving auth byBank: "
  | .AuthByCustomerDate .. => "error retrieving auth byCustomerDate: "
  | .RetrieveBalance => "error retrieving bank balance: "
  | .BalanceByID .. => "error fetching balance using id: "
  | .BalanceByOptions .. => "error retrieving balance byoptions: "
  | .BalanceByCustomer .. => "error retrieving balance bycustomer: "
  | .BalanceByAccount .. => "error retrieving balance by accountID: "
  | .BalanceByType .. => "error retrieving balance by type: "
  | .BalanceByCustomerDate .. => "error retrieving balance byCustomerDate: "
  | .RealTimeBalance .. => "error retrieving real time balance: "
  | .RetrieveTransaction => "error retrieving bank balance: "
  | .TransactionByID .. => "error fetching Transaction using id: "
  | .TransactionByOptions .. => "error retrieving transaction byoptions: "

/-- The contexts added between the method and `postRequest`: the one of `byID`
or of `byOptions` for the methods that go through them, none otherwise. -/
def Call.inner : Call → List String
  | .AuthByID .. | .BalanceByID .. | .TransactionByID .. =>
      ["error fetching product using id: "]
  | .AuthByOptions .. | .BalanceByOptions .. | .TransactionByOptions .. =>
      ["error retrieving product byoptions: "]
  | _ => []

/-- Wrap an error in a list of contexts, the first one outermost. -/
def wrapAll (ctxs : List String) (c : GoError) : GoError :=
  ctxs.foldr Errorf c

/-- The texts of a list, one after the other. -/
def joinAll (ss : List String) : String :=
  ss.foldr (fun s acc => s ++ acc) ""

/-- Pass an outcome up through a list of callers, the first one outermost. -/
def Outcome.orWrapAll (r : Outcome) (ctxs : List String) : Outcome :=
  ctxs.foldr (fun ctx o => o.orWrap ctx) r

end Okra

namespace Okra

/-! ## Example clients and networks -/

/-- The client of the scenarios: token `tok123`, base URL
`https://api.example.com/v2/`. -/
def exampleClient : Client :=
  { token := "tok123", baseurl := "https://api.example.com/v2/" }

/-- A network that accepts every URL and answers 200 with the body `ok-body`. -/
def netOK : World :=
  { rejectURL := fun _ => none, Do := fun _ => .ok ⟨200, .ok "ok-body"⟩ }

/-- A network that accepts every URL and answers 404 with a readable body. -/
def net404 : World :=
  { rejectURL := fun _ => none, Do := fun _ => .ok ⟨404, .ok "not found"⟩ }

/-- A network whose host cannot be resolved: `Do` fails on every request with
the `*url.Error` that names the URL of the request. -/
def netDown : World :=
  { rejectURL := fun _ => none,
    Do := fun r =>
      .error (urlError r.URL (.lib "dial tcp: lookup api.example.com: no such host")) }

/-- A network that answers 502 and then breaks while the body is read. -/
def netCut : World :=
  { rejectURL := fun _ => none, Do := fun _ => .ok ⟨502, .error (.lib "unexpected EOF")⟩ }

/-- A network that answers 200 and then breaks while the body is read. -/
def netTruncated : World :=
  { rejectURL := fun _ => none, Do := fun _ => .ok ⟨200, .error (.lib "unexpected EOF")⟩ }

/-! ## The payload invariant in the words of the specification -/

/-- The 13 keys of a QueryPayload on the wire. -/
def queryKeys : List String :=
  ["page", "limit", "customer", "from", "to", "bank", "id", "account", "type", "amount",
   "account_id", "record_id", "currency"]

/-- The QueryPayload fields a call populates, each with the caller's value, read
off the method's parameters. -/
def Call.populated : Call → List (String × String)
  | .RetrieveAuth | .RetrieveBalance | .RetrieveTransaction => []
  | .AuthByID page limit i | .BalanceByID page limit i | .TransactionByID page limit i =>
      [("page", page), ("limit", limit), ("id", i)]
  | .AuthByOptions page limit _ _ | .BalanceByOptions page limit _ _
  | .TransactionByOptions page limit _ _ => [("page", page), ("limit", limit)]
  | .AuthByCustomer page limit customerID | .BalanceByCustomer page limit customerID =>
      [("page", page), ("limit", limit), ("customer", customerID)]
  | .AuthByDateRange page limit from_ to_ =>
      [("page", page), ("limit", limit), ("from", from_), ("to", to_)]
  | .AuthByBank page limit bankID => [("page", page), ("limit", limit), ("bank", bankID)]
  | .AuthByCustomerDate page limit from_ to_ customerID
  | .BalanceByCustomerDate page limit from_ to_ customerID =>
      [("page", page), ("limit", limit), ("from", from_), ("to", to_), ("customer", customerID)]
  | .BalanceByAccount page limit AccountID =>
      [("page", page), ("limit", limit), ("account", AccountID)]
  | .BalanceByType page limit theType amount =>
      [("page", page), ("limit", limit), ("type", theType), ("amount", amount)]
  | .RealTimeBalance currency recordID accountID =>
      [("currency", currency), ("record_id", recordID), ("account_id", accountID)]

/-- The value the invariant asks for under a key: the caller's value when the
call populates the key, the empty string otherwise. -/
def Call.expected (call : Call) (k : String) : String :=
  (call.populated.lookup k).getD ""

/-- The 12 methods whose payload is a `genPayload`. -/
def Call.usesGenPayload : Call → Bool
  | .RetrieveAuth | .RetrieveBalance | .RetrieveTransaction => false
  | .AuthByOptions .. | .BalanceByOptions .. | .TransactionByOptions .. => false
  | _ => true

/-- The member `"k":"v"` occurs in the text of a body. -/
def fieldOccurs (k v body : String) : Prop :=
  (quote k ++ ":" ++ quote v).data <:+: body.data

instance (k v body : String) : Decidable (fieldOccurs k v body) := by
  unfold fieldOccurs; infer_instance

/-! ## Lemmas on the pipeline -/

/-- The request `postRequest` builds for a URL, a token and body bytes. -/
def theRequest (url token body : String) : Request :=
  { Method := "POST", URL := url, Header := [("Authorization", "Bearer " ++ token)],
    Body := body }

theorem postRequest_eq (net : World) (pl : Payload) (url token : String)
    (hu : net.rejectURL url = none) :
    postRequest net pl url token =
      match net.Do (theRequest url token pl.toJSON.render) with
      | .error err =>
          ⟨"Error", some (Errorf "error doing request: " err),
            [theRequest url token pl.toJSON.render]⟩
      | .ok resp =>
        match resp.Body with
        | .error err =>
            ⟨"Error", some (Errorf "error reading body: " err),
              [theRequest url token pl.toJSON.render]⟩
        | .ok bod =>
          if resp.StatusCode ≠ 200 then
            ⟨"Status code returned was: " ++ stringOfInt resp.StatusCode, none,
              [theRequest url token pl.toJSON.render]⟩
          else ⟨bod, none, [theRequest url token pl.toJSON.render]⟩ := by
  simp only [postRequest, jsonMarshal, NewRequest, hu, Request.HeaderAdd, theRequest,
    List.nil_append]

theorem postRequest_reject (net : World) (pl : Payload) (url token : String) (e : GoError)
    (hu : net.rejectURL url = some e) :
    postRequest net pl url token = ⟨"Error", some (Errorf "error making http call: " e), []⟩ := by
  simp only [postRequest, jsonMarshal, NewRequest, hu]

theorem postRequest_sent (net : World) (pl : Payload) (url token : String) :
    (postRequest net pl url token).sent =
      if net.rejectURL url = none then [theRequest url token pl.toJSON.render] else [] := by
  cases hu : net.rejectURL url with
  | some e => simp [postRequest_reject net pl url token e hu]
  | none =>
    rw [postRequest_eq net pl url token hu]
    cases hd : net.Do (theRequest url token pl.toJSON.render) with
    | error err => simp
    | ok resp =>
      cases hb : resp.Body with
      | error err => simp [hb]
      | ok bod => by_cases hs : resp.StatusCode = 200 <;> simp [hb, hs]

theorem postRequest_sent_of_accept (net : World) (pl : Payload) (url token : String)
    (hu : net.rejectURL url = none) :
    (postRequest net pl url token).sent = [theRequest url token pl.toJSON.render] := by
  rw [postRequest_sent, if_pos hu]

theorem auth_postRequest_eq (net : World) (url reqBody token : String)
    (hu : net.rejectURL url = none) :
    Auth.postRequest net url reqBody token =
      match net.Do (theRequest url token reqBody) with
      | .error err =>
          ⟨"Error", some (Errorf "error doing request: " err), [theRequest url token reqBody]⟩
      | .ok resp =>
        match resp.Body with
        | .error err =>
            ⟨"Error", some (Errorf "error reading body: " err), [theRequest url token reqBody]⟩
        | .ok bod =>
          if resp.StatusCode ≠ 200 then
            ⟨"Status code returned was: " ++ stringOfInt resp.StatusCode, none,
              [theRequest url token reqBody]⟩
          else ⟨bod, none, [theRequest url token reqBody]⟩ := by
  simp only [Auth.postRequest, NewRequest, hu, Request.HeaderAdd, theRequest, List.nil_append]

theorem orWrap_sent (r : Outcome) (ctx : String) : (r.orWrap ctx).sent = r.sent := by
  unfold Outcome.orWrap
  cases r.err <;> rfl

theorem orWrapAll_sent (r : Outcome) (ctxs : List String) : (r.orWrapAll ctxs).sent = r.sent := by
  induction ctxs with
  | nil => rfl
  | cons c cs ih => simp only [Outcome.orWrapAll, List.foldr_cons, orWrap_sent] at ih ⊢; exact ih

theorem orWrapAll_of_none (r : Outcome) (ctxs : List String) (h : r.err = none) :
    r.orWrapAll ctxs = r := by
  induction ctxs with
  | nil => rfl
  | cons c cs ih =>
    simp only [Outcome.orWrapAll, List.foldr_cons] at ih ⊢
    rw [ih]; simp [Outcome.orWrap, h]

theorem orWrapAll_of_some (r : Outcome) (ctxs : List String) (e : GoError) (h : r.err = some e)
    (hb : r.body = "Error") :
    r.orWrapAll ctxs = ⟨"Error", some (wrapAll ctxs e), r.sent⟩ := by
  induction ctxs with
  | nil => cases r; simp_all [Outcome.orWrapAll, wrapAll]
  | cons c cs ih =>
    simp only [Outcome.orWrapAll, List.foldr_cons, wrapAll] at ih ⊢
    rw [ih]; simp [Outcome.orWrap]

theorem call_unfold (w : Client) (net : World) (call : Call) :
    w.call net call =
      (postRequest net call.payload (w.baseurl ++ call.endpoint) w.token).orWrapAll
        (call.context :: call.inner) := by
  cases call <;> rfl

theorem call_sent (w : Client) (net : World) (call : Call)
    (hu : net.rejectURL (w.baseurl ++ call.endpoint) = none) :
    (w.call net call).sent =
      [theRequest (w.baseurl ++ call.endpoint) w.token call.payload.toJSON.render] := by
  rw [call_unfold, orWrapAll_sent, postRequest_sent_of_accept _ _ _ _ hu]

theorem wrapAll_Error (ctxs : List String) (c : GoError) :
    (wrapAll ctxs c).Error = joinAll ctxs ++ c.Error := by
  induction ctxs with
  | nil => simp [wrapAll, joinAll]
  | cons x xs ih =>
    simp only [wrapAll, joinAll, List.foldr_cons] at ih ⊢
    rw [String.append_assoc, ← ih]
    rfl

theorem unwrapN_wrapAll (ctxs : List String) (c : GoError) :
    unwrapN ctxs.length (wrapAll ctxs c) = some c := by
  induction ctxs with
  | nil => rfl
  | cons x xs ih =>
    simp only [wrapAll, List.foldr_cons, List.length_cons] at ih ⊢
    simp [unwrapN, Errorf, GoError.Unwrap, ih]

end Okra

namespace Okra

set_option maxRecDepth 20000

/-! ## Construction -/

/-- C1: `NewOkra t b` and `auth.New t b` panic exactly when `t` or `b` is empty;
otherwise they return the value whose token is `t` and whose base URL is `b`.
Neither takes the network, so neither can attempt a request. -/
theorem C1_constructors_panic_iff_empty (t b : String) :
    ((∃ msg, NewOkra t b = .error msg) ↔ (t = "" ∨ b = "")) ∧
    (¬ (t = "" ∨ b = "") → NewOkra t b = .ok { token := t, baseurl := b }) ∧
    ((∃ msg, Auth.New t b = .error msg) ↔ (t = "" ∨ b = "")) ∧
    (¬ (t = "" ∨ b = "") → Auth.New t b = .ok { token := t, baseurl := b }) := by
  by_cases h : t = "" ∨ b = ""
  · simp [NewOkra, Auth.New, h]
  · simp [NewOkra, Auth.New, h]

/-- C1 at the scenario's arguments, and at an empty token. -/
theorem C1_constructors_witness :
    NewOkra "tok123" "https://api.example.com/v2/" = .ok exampleClient ∧
    (∃ msg, NewOkra "" "https://api.example.com/v2/" = .error msg) ∧
    (∃ msg, Auth.New "tok123" "" = .error msg) :=
  ⟨(C1_constructors_panic_iff_empty "tok123" "https://api.example.com/v2/").2.1 (by decide),
   (C1_constructors_panic_iff_empty "" "https://api.example.com/v2/").1.2 (Or.inl rfl),
   (C1_constructors_panic_iff_empty "tok123" "").2.2.1.2 (Or.inr rfl)⟩

/-! ## Outcomes of `postRequest` -/

/-- C2: on a 404 response with a readable body, `postRequest` (of both packages)
returns a nil error and the text `Status code returned was: ` followed by the
single character U+0194; the text does not contain `404`. -/
theorem C2_status_text_lacks_the_digits :
    (postRequest net404 .nil "https://api.example.com/v2/products/auths" "tok123").err = none ∧
    (postRequest net404 .nil "https://api.example.com/v2/products/auths" "tok123").body
      = "Status code returned was: " ++ String.singleton (Char.ofNat 404) ∧
    ¬ ("404".data <:+:
      (postRequest net404 .nil "https://api.example.com/v2/products/auths" "tok123").body.data) ∧
    (Auth.postRequest net404 "https://api.example.com/v2/products/auths" "" "tok123").err
      = none ∧
    ¬ ("404".data <:+:
      (Auth.postRequest net404 "https://api.example.com/v2/products/auths" "" "tok123").body.data)
    := by
  decide

/-- C10: when `http.NewRequest` accepts the URL and the response to the request
has a body that cannot be read, whatever its status, `postRequest` of `okra.go`
and `postRequest` of `auth/auth.go` both return the text `Error` and the read
failure wrapped as `error reading body: ...`, after sending that one request;
neither returns the `Status code returned was: ...` text with a nil error. -/
theorem C10_read_failure_precedes_status (net : World) (pl : Payload)
    (url token reqBody : String) (status : Int) (e : GoError)
    (hu : net.rejectURL url = none) :
    (net.Do (theRequest url token pl.toJSON.render) = .ok ⟨status, .error e⟩ →
      postRequest net pl url token =
        ⟨"Error", some (Errorf "error reading body: " e),
          [theRequest url token pl.toJSON.render]⟩ ∧
      (Errorf "error reading body: " e).Error = "error reading body: " ++ e.Error ∧
      (Errorf "error reading body: " e).Unwrap = some e) ∧
    (net.Do (theRequest url token reqBody) = .ok ⟨status, .error e⟩ →
      Auth.postRequest net url reqBody token =
        ⟨"Error", some (Errorf "error reading body: " e), [theRequest url token reqBody]⟩) := by
  constructor
  · intro hdo
    rw [postRequest_eq net pl url token hu, hdo]
    exact ⟨rfl, rfl, rfl⟩
  · intro hdo
    rw [auth_postRequest_eq net url reqBody token hu, hdo]

/-- C10 on a network that answers 502 and breaks during the read, for both
packages. -/
theorem C10_read_failure_witness :
    (postRequest netCut .nil "https://api.example.com/v2/products/auths" "tok123").body
      = "Error" ∧
    ((postRequest netCut .nil "https://api.example.com/v2/products/auths" "tok123").err.map
      GoError.Error) = some "error reading body: unexpected EOF" ∧
    (Auth.postRequest netCut "https://api.example.com/v2/products/auths" "" "tok123").body
      = "Error" ∧
    ((Auth.postRequest netCut "https://api.example.com/v2/products/auths" "" "tok123").err.map
      GoError.Error) = some "error reading body: unexpected EOF" :=
  have h := C10_read_failure_precedes_status netCut .nil
    "https://api.example.com/v2/products/auths" "tok123" "" 502 (.lib "unexpected EOF") rfl
  ⟨by rw [(h.1 rfl).1], by rw [(h.1 rfl).1]; rfl, by rw [h.2 rfl], by rw [h.2 rfl]; rfl⟩

/-- C3: for each of the 18 methods, when `http.NewRequest` accepts the URL of the
call and the request of the call is answered 200 with a body that reads as `B`,
the call returns exactly `B` and a nil error. -/
theorem C3_ok_body_returned_unchanged (net : World) (w : Client) (call : Call) (B : String)
    (hu : net.rejectURL (w.baseurl ++ call.endpoint) = none)
    (hdo : net.Do (theRequest (w.baseurl ++ call.endpoint) w.token call.payload.toJSON.render)
      = .ok ⟨200, .ok B⟩) :
    (w.call net call).body = B ∧ (w.call net call).err = none := by
  rw [call_unfold]
  have hp : postRequest net call.payload (w.baseurl ++ call.endpoint) w.token =
      ⟨B, none, [theRequest (w.baseurl ++ call.endpoint) w.token call.payload.toJSON.render]⟩ := by
    rw [postRequest_eq net _ _ _ hu, hdo]
    simp
  rw [hp, orWrapAll_of_none _ _ rfl]
  exact ⟨rfl, rfl⟩

/-- C3 with the scenario's client on a method of each kind: through `byID`,
through `byOptions`, with a `genPayload` of its own, and without payload. -/
theorem C3_ok_body_witness :
    ((exampleClient.AuthByID netOK "" "" "42").body = "ok-body" ∧
      (exampleClient.AuthByID netOK "" "" "42").err = none) ∧
    ((exampleClient.TransactionByOptions netOK "1" "10" "Ada" "Lovelace").body = "ok-body" ∧
      (exampleClient.TransactionByOptions netOK "1" "10" "Ada" "Lovelace").err = none) ∧
    ((exampleClient.BalanceByType netOK "1" "10" "savings" "100").body = "ok-body" ∧
      (exampleClient.BalanceByType netOK "1" "10" "savings" "100").err = none) ∧
    ((exampleClient.RetrieveTransaction netOK).body = "ok-body" ∧
      (exampleClient.RetrieveTransaction netOK).err = none) :=
  ⟨C3_ok_body_returned_unchanged netOK exampleClient (.AuthByID "" "" "42") "ok-body" rfl rfl,
   C3_ok_body_returned_unchanged netOK exampleClient
     (.TransactionByOptions "1" "10" "Ada" "Lovelace") "ok-body" rfl rfl,
   C3_ok_body_returned_unchanged netOK exampleClient
     (.BalanceByType "1" "10" "savings" "100") "ok-body" rfl rfl,
   C3_ok_body_returned_unchanged netOK exampleClient .RetrieveTransaction "ok-body" rfl rfl⟩

/-! ## Errors of the methods -/

theorem wrapAll_append_singleton (ctxs : List String) (d : String) (c : GoError) :
    wrapAll (ctxs ++ [d]) c = wrapAll ctxs (Errorf d c) := by
  simp [wrapAll, List.foldr_append]

/-- C7: for each of the 18 methods, when `http.NewRequest` accepts the URL of the
call and `Do` fails on the request of the call with the cause `c`, the call
returns the text `Error` and an error that wraps `c` in the context of
`postRequest`, then of `byID` or `byOptions` if the method goes through one,
then of the method: its message is those contexts followed by the message of
`c`, it starts with the method's context and ends with the message of `c`, and
unwrapping it once per context gives `c` back. -/
theorem C7_transport_failure_wrapped (net : World) (w : Client) (call : Call) (c : GoError)
    (hu : net.rejectURL (w.baseurl ++ call.endpoint) = none)
    (hdo : net.Do (theRequest (w.baseurl ++ call.endpoint) w.token call.payload.toJSON.render)
      = .error c) :
    (w.call net call).body = "Error" ∧
    ∃ e, (w.call net call).err = some e ∧
      e = wrapAll (call.context :: call.inner ++ ["error doing request: "]) c ∧
      e.Error = call.context ++ (joinAll call.inner ++ ("error doing request: " ++ c.Error)) ∧
      call.context.data <+: e.Error.data ∧
      c.Error.data <:+ e.Error.data ∧
      unwrapN (call.inner.length + 2) e = some c := by
  rw [call_unfold]
  have hp : postRequest net call.payload (w.baseurl ++ call.endpoint) w.token =
      ⟨"Error", some (Errorf "error doing request: " c),
        [theRequest (w.baseurl ++ call.endpoint) w.token call.payload.toJSON.render]⟩ := by
    rw [postRequest_eq net _ _ _ hu, hdo]
  rw [hp, orWrapAll_of_some _ _ _ rfl rfl]
  refine ⟨rfl, _, rfl, ?_⟩
  have hmsg : (wrapAll (call.context :: call.inner) (Errorf "error doing request: " c)).Error =
      call.context ++ (joinAll call.inner ++ ("error doing request: " ++ c.Error)) := by
    rw [wrapAll_Error]
    simp only [joinAll, List.foldr_cons, Errorf, GoError.Error, String.append_assoc]
  refine ⟨?_, hmsg, ?_, ?_, ?_⟩
  · rw [wrapAll_append_singleton]
  · rw [hmsg, String.data_append]
    exact List.prefix_append _ _
  · rw [hmsg, ← String.append_assoc, ← String.append_assoc, String.data_append]
    exact List.suffix_append _ _
  · have h := unwrapN_wrapAll (call.context :: call.inner ++ ["error doing request: "]) c
    rw [wrapAll_append_singleton] at h
    simpa using h

/-- C7 on `AuthByID` and on `BalanceByType` against a host that cannot be
resolved: the cause is the `*url.Error` of `Do`, which names the URL. -/
theorem C7_transport_failure_witness :
    (exampleClient.AuthByID netDown "" "" "42").body = "Error" ∧
    ((exampleClient.AuthByID netDown "" "" "42").err.map GoError.Error) =
      some ("error fetching auth using id: error fetching product using id: " ++
        "error doing request: Post \"https://api.example.com/v2/auth/getById\": " ++
        "dial tcp: lookup api.example.com: no such host") ∧
    (exampleClient.BalanceByType netDown "1" "10" "savings" "100").body = "Error" ∧
    ((exampleClient.BalanceByType netDown "1" "10" "savings" "100").err.map GoError.Error) =
      some ("error retrieving balance by type: " ++
        "error doing request: Post \"https://api.example.com/v2/balance/getByType\": " ++
        "dial tcp: lookup api.example.com: no such host") := by
  obtain ⟨hb, e, he, _, hm, _⟩ :=
    C7_transport_failure_wrapped netDown exampleClient (.AuthByID "" "" "42")
      (urlError "https://api.example.com/v2/auth/getById"
        (.lib "dial tcp: lookup api.example.com: no such host")) rfl rfl
  obtain ⟨hb2, e2, he2, _, hm2, _⟩ :=
    C7_transport_failure_wrapped netDown exampleClient (.BalanceByType "1" "10" "savings" "100")
      (urlError "https://api.example.com/v2/balance/getByType"
        (.lib "dial tcp: lookup api.example.com: no such host")) rfl rfl
  refine ⟨hb, ?_, hb2, ?_⟩
  · rw [show exampleClient.AuthByID netDown "" "" "42"
      = exampleClient.call netDown (.AuthByID "" "" "42") from rfl, he, Option.map_some', hm]
    rfl
  · rw [show exampleClient.BalanceByType netDown "1" "10" "savings" "100"
      = exampleClient.call netDown (.BalanceByType "1" "10" "savings" "100") from rfl, he2,
      Option.map_some', hm2]
    rfl

/-- Two calls with the same context name the same method (they have the same
endpoint), unless one is `RetrieveBalance` and the other `RetrieveTransaction`. -/
theorem context_eq_cases (c1 c2 : Call) (h : c1.context = c2.context) :
    c1.endpoint = c2.endpoint ∨
    (c1 = .RetrieveBalance ∧ c2 = .RetrieveTransaction) ∨
    (c1 = .RetrieveTransaction ∧ c2 = .RetrieveBalance) := by
  cases c1 <;> cases c2 <;> first
    | (left; rfl)
    | (right; left; exact ⟨rfl, rfl⟩)
    | (right; right; exact ⟨rfl, rfl⟩)
    | (exfalso; revert h; simp only [Call.context]; decide)

/-- C9: when the response is read and the read breaks with `unexpected EOF`,
`RetrieveTransaction` returns the very error `RetrieveBalance` returns, with the
message `error retrieving bank balance: error reading body: unexpected EOF`:
the two methods have one and the same context. -/
theorem C9_RetrieveTransaction_has_balance_context :
    (exampleClient.RetrieveTransaction netTruncated).err =
      (exampleClient.RetrieveBalance netTruncated).err ∧
    ((exampleClient.RetrieveTransaction netTruncated).err.map GoError.Error) =
      some "error retrieving bank balance: error reading body: unexpected EOF" ∧
    ((exampleClient.RetrieveBalance netTruncated).err.map GoError.Error) =
      some "error retrieving bank balance: error reading body: unexpected EOF" ∧
    Call.context .RetrieveTransaction = Call.context .RetrieveBalance := by
  decide

/-! ## Requests of the methods -/

/-- C8: `RetrieveAuth`, `RetrieveBalance` and `RetrieveTransaction` of `Client`
send the four bytes `null` as entity body, not an empty body; `RetrieveAuth` of
package `auth` sends an empty body. -/
theorem C8_Retrieve_sends_null :
    (exampleClient.RetrieveAuth netOK).sent.map Request.Body = ["null"] ∧
    (exampleClient.RetrieveBalance netOK).sent.map Request.Body = ["null"] ∧
    (exampleClient.RetrieveTransaction netOK).sent.map Request.Body = ["null"] ∧
    ((Auth.Initializer.mk "tok123" "https://api.example.com/v2/").RetrieveAuth netOK).sent.map
      Request.Body = [""] := by
  decide

/-- C4: for a client made by `NewOkra t b`, when `http.NewRequest` accepts the
URL, `AuthByID page limit i` sends exactly one request: a POST to
`b ++ "auth/getById"` with the header `Authorization: Bearer t`, whose body is
the JSON object of the 13 keys with `page`, `limit` and `id` carrying the
arguments and every other key the empty string. -/
theorem C4_AuthByID_request (net : World) (t b page limit i : String) (w : Client)
    (hw : NewOkra t b = .ok w) (hu : net.rejectURL (b ++ "auth/getById") = none) :
    (w.AuthByID net page limit i).sent =
      [{ Method := "POST", URL := b ++ "auth/getById",
         Header := [("Authorization", "Bearer " ++ t)],
         Body := (JSON.obj [("page", .str page), ("limit", .str limit), ("customer", .str ""),
           ("from", .str ""), ("to", .str ""), ("bank", .str ""), ("id", .str i),
           ("account", .str ""), ("type", .str ""), ("amount", .str ""),
           ("account_id", .str ""), ("record_id", .str ""), ("currency", .str "")]).render }] := by
  have hw2 : w = { token := t, baseurl := b } := by
    unfold NewOkra at hw
    by_cases h : t = "" ∨ b = ""
    · simp [h] at hw
    · simp [h] at hw
      exact hw.symm
  subst hw2
  have h := call_unfold { token := t, baseurl := b } net (.AuthByID page limit i)
  rw [show Client.call { token := t, baseurl := b } net (.AuthByID page limit i) =
    Client.AuthByID { token := t, baseurl := b } net page limit i from rfl] at h
  rw [h, orWrapAll_sent, postRequest_sent]
  simp only [Call.endpoint, hu, if_true]
  rfl

/-- C4 in the scenario: token `tok123`, base URL `https://api.example.com/v2/`,
id `42`, page and limit empty. -/
theorem C4_AuthByID_witness :
    (exampleClient.AuthByID netOK "" "" "42").sent =
      [{ Method := "POST", URL := "https://api.example.com/v2/auth/getById",
         Header := [("Authorization", "Bearer tok123")],
         Body := "\x7b\"page\":\"\",\"limit\":\"\",\"customer\":\"\",\"from\":\"\",\"to\":\"\"," ++
           "\"bank\":\"\",\"id\":\"42\",\"account\":\"\",\"type\":\"\",\"amount\":\"\"," ++
           "\"account_id\":\"\",\"record_id\":\"\",\"currency\":\"\"\x7d" }] :=
  (C4_AuthByID_request netOK "tok123" "https://api.example.com/v2/" "" "" "42" exampleClient
    rfl rfl).trans rfl

theorem renderFields_member (k v : String) :
    ∀ fields : List (String × JSON), (k, JSON.str v) ∈ fields →
      (quote k ++ ":" ++ quote v).data <:+: (JSON.renderFields fields).data
  | [], h => by simp at h
  | [(k1, v1)], h => by
    simp only [List.mem_singleton, Prod.mk.injEq] at h
    obtain ⟨rfl, rfl⟩ := h
    rw [JSON.renderFields, JSON.render]
  | (k1, v1) :: f :: fs, h => by
    rw [JSON.renderFields]
    rcases List.mem_cons.1 h with h | h
    · simp only [Prod.mk.injEq] at h
      obtain ⟨rfl, rfl⟩ := h
      rw [JSON.render]
      exact ⟨[], (",".data ++ (JSON.renderFields (f :: fs)).data),
        by simp [String.data_append]⟩
    · obtain ⟨s, t, hst⟩ := renderFields_member k v (f :: fs) h
      refine ⟨(quote k1 ++ ":" ++ JSON.render v1 ++ ",").data ++ s, t, ?_⟩
      rw [String.data_append (quote k1 ++ ":" ++ JSON.render v1 ++ ","), ← hst]
      simp [List.append_assoc]

theorem render_obj_member (k v : String) (fields : List (String × JSON))
    (h : (k, JSON.str v) ∈ fields) : fieldOccurs k v (JSON.obj fields).render := by
  obtain ⟨s, t, hst⟩ := renderFields_member k v fields h
  refine ⟨"\x7b".data ++ s, t ++ "\x7d".data, ?_⟩
  have hd : ("\x7b" ++ JSON.renderFields fields ++ "\x7d").data =
      "\x7b".data ++ (JSON.renderFields fields).data ++ "\x7d".data := by
    simp only [String.data_append]
  rw [JSON.render, hd, ← hst]
  simp only [String.data_append, List.append_assoc]

theorem byOptions_sent (net : World) (page limit firstname lastname url token : String)
    (hu : net.rejectURL url = none) :
    (byOptions net page limit firstname lastname url token).sent =
      [theRequest url token (JSON.obj [("page", .str page), ("limit", .str limit),
        ("options", .obj [("first_name", .str firstname), ("last_name", .str lastname)])]).render]
    := by
  unfold byOptions
  rw [orWrap_sent, postRequest_sent_of_accept _ _ _ _ hu]
  rfl

/-- C5: when `http.NewRequest` accepts the URL, `byOptions` sends exactly one
request, and so do `AuthByOptions`, `BalanceByOptions` and
`TransactionByOptions`: a POST whose body is the JSON object with the keys
`page` and `limit` carrying the arguments and, under `options`, the object with
`first_name` = firstname and `last_name` = lastname. -/
theorem C5_byOptions_body (net : World) (w : Client)
    (page limit firstname lastname url token : String) :
    (net.rejectURL url = none →
      (byOptions net page limit firstname lastname url token).sent =
        [theRequest url token (JSON.obj [("page", .str page), ("limit", .str limit),
          ("options",
            .obj [("first_name", .str firstname), ("last_name", .str lastname)])]).render]) ∧
    (net.rejectURL (w.baseurl ++ "auth/getByOptions") = none →
      (w.AuthByOptions net page limit firstname lastname).sent =
        [theRequest (w.baseurl ++ "auth/getByOptions") w.token
          (JSON.obj [("page", .str page), ("limit", .str limit),
            ("options",
              .obj [("first_name", .str firstname), ("last_name", .str lastname)])]).render]) ∧
    (net.rejectURL (w.baseurl ++ "balance/byOptions") = none →
      (w.BalanceByOptions net page limit firstname lastname).sent =
        [theRequest (w.baseurl ++ "balance/byOptions") w.token
          (JSON.obj [("page", .str page), ("limit", .str limit),
            ("options",
              .obj [("first_name", .str firstname), ("last_name", .str lastname)])]).render]) ∧
    (net.rejectURL (w.baseurl ++ "transaction/byOptions") = none →
      (w.TransactionByOptions net page limit firstname lastname).sent =
        [theRequest (w.baseurl ++ "transaction/byOptions") w.token
          (JSON.obj [("page", .str page), ("limit", .str limit),
            ("options",
              .obj [("first_name", .str firstname), ("last_name", .str lastname)])]).render])
    := by
  refine ⟨fun hu => byOptions_sent net page limit firstname lastname url token hu,
    fun hu => ?_, fun hu => ?_, fun hu => ?_⟩
  · unfold Client.AuthByOptions
    rw [orWrap_sent]
    exact byOptions_sent net page limit firstname lastname _ _ hu
  · unfold Client.BalanceByOptions
    rw [orWrap_sent]
    exact byOptions_sent net page limit firstname lastname _ _ hu
  · unfold Client.TransactionByOptions
    rw [orWrap_sent]
    exact byOptions_sent net page limit firstname lastname _ _ hu

/-- C5 in the scenario: page `1`, limit `10`, firstname `Ada`, lastname
`Lovelace`; `byOptions` and the three methods each send one request with
exactly the body of the scenario. -/
theorem C5_byOptions_witness :
    (byOptions netOK "1" "10" "Ada" "Lovelace" "https://api.example.com/v2/x" "tok123").sent =
      [theRequest "https://api.example.com/v2/x" "tok123"
        ("\x7b\"page\":\"1\",\"limit\":\"10\",\"options\":" ++
          "\x7b\"first_name\":\"Ada\",\"last_name\":\"Lovelace\"\x7d\x7d")] ∧
    (exampleClient.AuthByOptions netOK "1" "10" "Ada" "Lovelace").sent =
      [theRequest "https://api.example.com/v2/auth/getByOptions" "tok123"
        ("\x7b\"page\":\"1\",\"limit\":\"10\",\"options\":" ++
          "\x7b\"first_name\":\"Ada\",\"last_name\":\"Lovelace\"\x7d\x7d")] ∧
    (exampleClient.BalanceByOptions netOK "1" "10" "Ada" "Lovelace").sent =
      [theRequest "https://api.example.com/v2/balance/byOptions" "tok123"
        ("\x7b\"page\":\"1\",\"limit\":\"10\",\"options\":" ++
          "\x7b\"first_name\":\"Ada\",\"last_name\":\"Lovelace\"\x7d\x7d")] ∧
    (exampleClient.TransactionByOptions netOK "1" "10" "Ada" "Lovelace").sent =
      [theRequest "https://api.example.com/v2/transaction/byOptions" "tok123"
        ("\x7b\"page\":\"1\",\"limit\":\"10\",\"options\":" ++
          "\x7b\"first_name\":\"Ada\",\"last_name\":\"Lovelace\"\x7d\x7d")] :=
  have h := C5_byOptions_body netOK exampleClient "1" "10" "Ada" "Lovelace"
    "https://api.example.com/v2/x" "tok123"
  ⟨(h.1 rfl).trans rfl, (h.2.1 rfl).trans rfl, (h.2.2.1 rfl).trans rfl,
    (h.2.2.2 rfl).trans rfl⟩

/-- C6, as stated, fails on `AuthByOptions`: the body it sends is
`{"page":"1","limit":"10","options":{...}}`, in which the QueryPayload field
`customer`, which the call does not populate, does not occur as an empty
string. -/
theorem C6_ByOptions_omits_fields :
    (exampleClient.call netOK (.AuthByOptions "1" "10" "Ada" "Lovelace")).sent.map Request.Body =
      ["\x7b\"page\":\"1\",\"limit\":\"10\",\"options\":" ++
        "\x7b\"first_name\":\"Ada\",\"last_name\":\"Lovelace\"\x7d\x7d"] ∧
    "customer" ∈ queryKeys ∧
    (Call.AuthByOptions "1" "10" "Ada" "Lovelace").expected "customer" = "" ∧
    ¬ ∀ r ∈ (exampleClient.call netOK (.AuthByOptions "1" "10" "Ada" "Lovelace")).sent,
      ∀ k ∈ queryKeys,
        fieldOccurs k ((Call.AuthByOptions "1" "10" "Ada" "Lovelace").expected k) r.Body := by
  refine ⟨rfl, by decide, rfl, ?_⟩
  intro h
  have h1 : fieldOccurs "customer" ""
      ("\x7b\"page\":\"1\",\"limit\":\"10\",\"options\":" ++
        "\x7b\"first_name\":\"Ada\",\"last_name\":\"Lovelace\"\x7d\x7d") :=
    h _ (List.mem_singleton.2 rfl) "customer" (by decide)
  revert h1
  unfold fieldOccurs
  decide

/-- C6, amended: when `http.NewRequest` accepts the URL of the call, each of
the 12 methods that build a `genPayload` sends exactly one request, whose body
is the JSON object of exactly the 13 QueryPayload keys, each key the call
populates carrying the caller's value and every other key present as the empty
string; each `ByOptions` method sends exactly one request, whose body is the
object with `page`, `limit` and `options`. -/
theorem C6_gen_calls_send_every_field (net : World) (w : Client) (call : Call)
    (hu : net.rejectURL (w.baseurl ++ call.endpoint) = none) :
    (call.usesGenPayload = true →
      (w.call net call).sent =
        [theRequest (w.baseurl ++ call.endpoint) w.token
          (JSON.obj (queryKeys.map fun k => (k, JSON.str (call.expected k)))).render] ∧
      ∀ k ∈ queryKeys, fieldOccurs k (call.expected k)
        (JSON.obj (queryKeys.map fun k => (k, JSON.str (call.expected k)))).render) ∧
    (∀ page limit firstname lastname,
      (call = .AuthByOptions page limit firstname lastname ∨
        call = .BalanceByOptions page limit firstname lastname ∨
        call = .TransactionByOptions page limit firstname lastname) →
      (w.call net call).sent =
        [theRequest (w.baseurl ++ call.endpoint) w.token
          (JSON.obj [("page", .str page), ("limit", .str limit),
            ("options",
              .obj [("first_name", .str firstname), ("last_name", .str lastname)])]).render])
    := by
  rw [call_sent w net call hu]
  constructor
  · intro hg
    have hbody : call.payload.toJSON.render
        = (JSON.obj (queryKeys.map fun k => (k, JSON.str (call.expected k)))).render := by
      cases call <;> simp [Call.usesGenPayload] at hg <;>
        simp [Call.payload, Payload.toJSON, genPayload.toJSON, queryKeys,
          Call.expected, Call.populated, List.lookup]
    refine ⟨by rw [hbody], ?_⟩
    intro k hk
    exact render_obj_member k _ _ (List.mem_map.2 ⟨k, hk, rfl⟩)
  · rintro page limit firstname lastname (rfl | rfl | rfl) <;> rfl

/-- C6, amended, on `AuthByCustomer` and `RealTimeBalance`: the one request
sent has the 13 keys, the populated ones with the caller's values, and `bank`,
which `AuthByCustomer` leaves alone, occurs as an empty string. -/
theorem C6_gen_calls_witness :
    (exampleClient.AuthByCustomer netOK "1" "10" "cust-9").sent =
      [theRequest "https://api.example.com/v2/auth/getByCustomer" "tok123"
        ("\x7b\"page\":\"1\",\"limit\":\"10\",\"customer\":\"cust-9\",\"from\":\"\"," ++
          "\"to\":\"\",\"bank\":\"\",\"id\":\"\",\"account\":\"\",\"type\":\"\",\"amount\":\"\"," ++
          "\"account_id\":\"\",\"record_id\":\"\",\"currency\":\"\"\x7d")] ∧
    (exampleClient.RealTimeBalance netOK "NGN" "rec-1" "acc-7").sent =
      [theRequest "https://api.example.com/v2/products/balance/periodic" "tok123"
        ("\x7b\"page\":\"\",\"limit\":\"\",\"customer\":\"\",\"from\":\"\"," ++
          "\"to\":\"\",\"bank\":\"\",\"id\":\"\",\"account\":\"\",\"type\":\"\",\"amount\":\"\"," ++
          "\"account_id\":\"acc-7\",\"record_id\":\"rec-1\",\"currency\":\"NGN\"\x7d")] ∧
    fieldOccurs "bank" ""
      ("\x7b\"page\":\"1\",\"limit\":\"10\",\"customer\":\"cust-9\",\"from\":\"\"," ++
          "\"to\":\"\",\"bank\":\"\",\"id\":\"\",\"account\":\"\",\"type\":\"\",\"amount\":\"\"," ++
          "\"account_id\":\"\",\"record_id\":\"\",\"currency\":\"\"\x7d") :=
  have h1 := (C6_gen_calls_send_every_field netOK exampleClient
    (.AuthByCustomer "1" "10" "cust-9") rfl).1 rfl
  have h2 := (C6_gen_calls_send_every_field netOK exampleClient
    (.RealTimeBalance "NGN" "rec-1" "acc-7") rfl).1 rfl
  ⟨h1.1.trans rfl, h2.1.trans rfl, h1.2 "bank" (by decide)⟩

end Okra
